import Mathlib

/-!
Verification of the PipelineWorker job-lifecycle orchestrator
(`pipeline_worker.py`) against its natural-language specification.

The Python source is shallowly embedded: pure helpers become Lean
functions, the stateful monitor/watcher loops become explicit
state-passing step functions, datetimes become natural numbers
(microseconds of the ISO-8601 rendering), the JSON snapshot file becomes
a token list, and side effects (HTTP notifications, sbatch submission,
archival calls, persistence) become an explicit `Action` trace.
-/

namespace PipelineWorker

/-! ### Status vocabulary and the SLURM-to-step mapping -/

/-- Values of `StepStatusEnum` relevant to the mapping; statuses are
threaded as plain strings exactly as in the source. -/
def slurm_to_step_mapping : List (String × String) :=
  [("PENDING", "pending"),
   ("RUNNING", "running"),
   ("COMPLETED", "completed"),
   ("FAILED", "failed"),
   ("CANCELLED", "failed"),
   ("TIMEOUT", "failed"),
   ("NODE_FAIL", "failed"),
   ("OUT_OF_MEMORY", "failed"),
   ("UNKNOWN", "failed"),
   ("ERROR", "failed")]

/-- Embedding of `map_slurm_status_to_step_status`: dictionary lookup
with default `StepStatusEnum.FAILED.value`. -/
def map_slurm_status_to_step_status (slurm_status : String) : String :=
  (slurm_to_step_mapping.lookup slurm_status).getD "failed"

/-! ### The Job Record -/

/-- Embedding of the `JobInfo` dataclass.  `datetime` values are
modelled as natural numbers (e.g. microseconds since the epoch); the
model of `datetime.isoformat` below is injective with an exact inverse,
which is precisely the property the ISO-8601 rendering has at the
serialized precision. -/
structure JobInfo where
  job_id : String
  pipeline_id : String
  step_name : String
  submit_time : Nat
  last_check_time : Nat
  h5_image_name : Option String := none
  status : String := "PENDING"
deriving DecidableEq

/-- The in-memory `running_jobs` dictionary, in insertion order. -/
abbrev JobStore := List (String × JobInfo)

/-! ### Serialization of the Job Record Store

`_save_running_jobs` renders each record to a JSON object with string
fields (timestamps via `datetime.isoformat`);  `_load_running_jobs`
parses the file and rebuilds each record (timestamps via
`datetime.fromisoformat`).  The file itself is modelled as a list of
JSON tokens, the parsed document as a small JSON value type. -/

/-- Little-endian base-10 digits with explicit fuel, so that concrete
timestamps evaluate inside the kernel. -/
def digits_go : Nat → Nat → List Nat
  | 0, _ => []
  | _, 0 => []
  | f + 1, n => n % 10 :: digits_go f (n / 10)

/-- Model of `datetime.isoformat`: an injective rendering of the
timestamp.  We use the base-10 digit list of the numeric timestamp. -/
def datetime_isoformat (t : Nat) : List Nat := digits_go t t

/-- Model of `datetime.fromisoformat`, the exact inverse of
`datetime_isoformat`. -/
def datetime_fromisoformat (s : List Nat) : Nat := Nat.ofDigits 10 s

/-- One serialized record: the per-key JSON object written by
`_save_running_jobs` (field order as in the source). -/
structure JobData where
  job_id : String
  pipeline_id : String
  step_name : String
  submit_time : List Nat
  last_check_time : List Nat
  h5_image_name : Option String
  status : String
deriving DecidableEq

/-- The per-record serialization performed inside `_save_running_jobs`. -/
def jobInfoToData (j : JobInfo) : JobData :=
  { job_id := j.job_id
    pipeline_id := j.pipeline_id
    step_name := j.step_name
    submit_time := datetime_isoformat j.submit_time
    last_check_time := datetime_isoformat j.last_check_time
    h5_image_name := j.h5_image_name
    status := j.status }

/-- JSON tokens of the snapshot file.  A timestamp string is carried by
`tnum` (its digit payload), any other string by `tstr`. -/
inductive Token where
  | lbrace
  | rbrace
  | colon
  | comma
  | tstr (s : String)
  | tnum (d : List Nat)
  | tnull
deriving DecidableEq

/-- Parsed JSON values, as produced by `json.load`. -/
inductive Json where
  | str (s : String)
  | num (d : List Nat)
  | null
  | obj (entries : List (String × Json))

/-- Token rendering of the JSON object holding one serialized record,
exactly in the field order written by `_save_running_jobs`. -/
def jobValueTokens (d : JobData) : List Token :=
  [.lbrace,
   .tstr "job_id", .colon, .tstr d.job_id, .comma,
   .tstr "pipeline_id", .colon, .tstr d.pipeline_id, .comma,
   .tstr "step_name", .colon, .tstr d.step_name, .comma,
   .tstr "submit_time", .colon, .tnum d.submit_time, .comma,
   .tstr "last_check_time", .colon, .tnum d.last_check_time, .comma,
   .tstr "h5_image_name", .colon,
   (match d.h5_image_name with
    | some s => Token.tstr s
    | none => Token.tnull),
   .comma, .tstr "status", .colon, .tstr d.status, .rbrace]

/-- Token rendering of one record together with its key. -/
def jobDataTokens (key : String) (d : JobData) : List Token :=
  Token.tstr key :: Token.colon :: jobValueTokens d

/-- The parsed JSON entry list corresponding to one serialized record. -/
def jobDataJson (d : JobData) : List (String × Json) :=
  [("job_id", .str d.job_id),
   ("pipeline_id", .str d.pipeline_id),
   ("step_name", .str d.step_name),
   ("submit_time", .num d.submit_time),
   ("last_check_time", .num d.last_check_time),
   ("h5_image_name",
    (match d.h5_image_name with
     | some s => Json.str s
     | none => Json.null)),
   ("status", .str d.status)]

/-- Comma-separated token rendering of the serialized records. -/
def jobsDataTokens : List (String × JobData) → List Token
  | [] => []
  | [e] => jobDataTokens e.1 e.2
  | e :: rest => jobDataTokens e.1 e.2 ++ Token.comma :: jobsDataTokens rest

/-- Embedding of `_save_running_jobs`: the complete token stream of the
snapshot file written (atomically successful write). -/
def save_running_jobs (jobs : JobStore) : List Token :=
  Token.lbrace :: jobsDataTokens (jobs.map fun e => (e.1, jobInfoToData e.2)) ++ [Token.rbrace]

/-- Crash model for `_save_running_jobs`: the file is opened with mode
`w`, which truncates it immediately, and then written front to back; a
process crash after `k` tokens leaves the first `k` tokens of the new
serialization on disk. -/
def save_running_jobs_crash (jobs : JobStore) (k : Nat) : List Token :=
  (save_running_jobs jobs).take k

mutual

/-- Fueled recursive-descent parser for one JSON value (model of the
parsing done by `json.load`). -/
def parseValue : Nat → List Token → Option (Json × List Token)
  | 0, _ => none
  | _ + 1, .tstr s :: rest => some (.str s, rest)
  | _ + 1, .tnum d :: rest => some (.num d, rest)
  | _ + 1, .tnull :: rest => some (.null, rest)
  | _ + 1, .lbrace :: .rbrace :: rest => some (.obj [], rest)
  | fuel + 1, .lbrace :: rest =>
      match parseEntries fuel rest with
      | some (es, rest1) => some (.obj es, rest1)
      | none => none
  | _ + 1, _ => none

/-- Fueled parser for the nonempty entry list of a JSON object,
consuming the closing brace. -/
def parseEntries : Nat → List Token → Option (List (String × Json) × List Token)
  | 0, _ => none
  | fuel + 1, .tstr k :: .colon :: rest =>
      match parseValue fuel rest with
      | some (v, rest1) =>
        match rest1 with
        | .comma :: rest2 =>
            match parseEntries fuel rest2 with
            | some (es, rest3) => some ((k, v) :: es, rest3)
            | none => none
        | .rbrace :: rest2 => some ([(k, v)], rest2)
        | _ => none
      | none => none
  | _ + 1, _ => none

end

/-- Model of `json.load` on the snapshot file: parse one document and
require the whole file to be consumed. -/
def json_load (tokens : List Token) : Option Json :=
  match parseValue (tokens.length + 1) tokens with
  | some (j, []) => some j
  | _ => none

/-- Extraction of a string field, as `job_data["field"]` on a parsed
document; anything but a string raises (modelled as `none`). -/
def asStr : Option Json → Option String
  | some (.str s) => some s
  | _ => none

/-- Extraction of a timestamp field followed by
`datetime.fromisoformat`; anything but a timestamp string raises. -/
def asNum : Option Json → Option (List Nat)
  | some (.num d) => some d
  | _ => none

/-- Rebuilding one `JobInfo` from a parsed record, mirroring the body of
the load loop in `_load_running_jobs`.  A missing or mistyped mandatory
field is a raised exception, modelled as `none`; `h5_image_name` is read
with `.get`, which never raises. -/
def jobInfoOfJson (j : Json) : Option JobInfo :=
  match j with
  | .obj es =>
    match asStr (es.lookup "job_id"), asStr (es.lookup "pipeline_id"),
          asStr (es.lookup "step_name"), asNum (es.lookup "submit_time"),
          asNum (es.lookup "last_check_time"), asStr (es.lookup "status") with
    | some jid, some pid, some sn, some st, some lct, some status =>
        some { job_id := jid
               pipeline_id := pid
               step_name := sn
               submit_time := datetime_fromisoformat st
               last_check_time := datetime_fromisoformat lct
               h5_image_name :=
                 (match es.lookup "h5_image_name" with
                  | some (.str s) => some s
                  | _ => none)
               status := status }
    | _, _, _, _, _, _ => none
  | _ => none

/-- The load loop of `_load_running_jobs`: records are inserted one by
one; an exception while rebuilding a record aborts the loop but the
records already inserted remain in the store. -/
def loadJobsFromEntries : List (String × Json) → JobStore
  | [] => []
  | (k, j) :: rest =>
    match jobInfoOfJson j with
    | some info => (k, info) :: loadJobsFromEntries rest
    | none => []

/-- Embedding of `_load_running_jobs`.  `none` models a missing snapshot
file (early return); an unparseable file raises inside the guarded body,
the exception is caught and the store is left empty; a document that is
not an object raises at `.items()` before any insertion. -/
def load_running_jobs (file : Option (List Token)) : JobStore :=
  match file with
  | none => []
  | some tokens =>
    match json_load tokens with
    | some (.obj es) => loadJobsFromEntries es
    | _ => []

/-! ### Side effects as an explicit trace -/

/-- Observable effects of the worker: HTTP notifications to the control
plane, the sbatch submission, the archival collaborator calls, and each
persistence of the Job Record Store. -/
inductive Action where
  | updateProgress (pipeline_id step_name step_status : String) (progress : Nat)
  | notifyStarted (pipeline_id step_name job_id : String)
  | notifyComplete (pipeline_id step_name job_id : String)
  | notifyFailed (pipeline_id step_name error_message : String)
  | organizeImageFiles (h5_image_name : String)
  | archiveCommand (image_id : Option String)
  | submitSbatchJob (pipeline_id step_name : String) (h5_image_name : Option String)
  | saveRunningJobs
deriving DecidableEq

/-- Environment of a monitor step: the worker liveness flags consulted
by every handler, the set of paths that exist on the shared filesystem
(`os.path.exists`), the best-effort result of `_get_job_error_details`,
and the result of the image-id regex search used by the archive call. -/
structure Env where
  is_running : Bool := true
  http_client_closed : Bool := false
  fs : List String := []
  error_details : String → Option String := fun _ => none
  extract_image_id : String → Option String := fun _ => none

/-- Configuration value `cfg.ImageRootDirectory` (from `config.py`). -/
def ImageRootDirectory : String := "/home/seele/Desktop/WorkSpace/PipelineWorker/data"

/-- Configuration value `cfg.ImageTransferTemp = os.path.flatten(ImageRootDirectory, "transfer_temp")`. -/
def ImageTransferTemp : String := ImageRootDirectory ++ "/transfer_temp"

/-- Model of `os.path.flatten` for a relative second component. -/
def os_path_join (a b : String) : String := a ++ "/" ++ b

/-! ### Completion handling -/

/-- Model of Python `str.replace` on character lists: replace every
non-overlapping occurrence of `pat`, scanning left to right.  The fuel
is the length of the scanned list, which suffices because every step
consumes at least one character. -/
def str_replace_go (fuel : Nat) (s pat rep : List Char) : List Char :=
  match fuel, s with
  | 0, s => s
  | _ + 1, [] => []
  | f + 1, c :: rest =>
    if pat ≠ [] ∧ pat.isPrefixOf (c :: rest) then
      rep ++ str_replace_go f ((c :: rest).drop pat.length) pat rep
    else
      c :: str_replace_go f rest pat rep

/-- Model of Python `str.replace` (for the nonempty patterns used by the
worker). -/
def string_replace (s pat rep : String) : String :=
  ⟨str_replace_go s.data.length s.data pat.data rep.data⟩

/-- The fixed per-step expected-output table built inside
`_handle_job_completion` from the input file name. -/
def completion_script_mapping (h5_image_name : String) : List (String × String) :=
  [("mip_generation", string_replace h5_image_name ".pyramid.h5" "_MIP.tif"),
   ("h5_to_v3draw", string_replace h5_image_name ".pyramid.h5" ".v3draw"),
   ("bit_conversion", string_replace h5_image_name ".pyramid.h5" "_8bit.v3draw"),
   ("downsample", string_replace h5_image_name ".pyramid.h5" "_8bit_downsampled.v3draw")]

/-- The missing-artifact phrase of the silent-failure message. -/
def missing_artifact_phrase : String := "任务结束但未找到处理后的结果文件！"

/-- Append the best-effort error detail to a failure message, mirroring
the `if error_details:` truthiness check. -/
def append_error_details (base : String) (details : Option String) : String :=
  match details with
  | some d => if d = "" then base else base ++ ", 错误详情: " ++ d
  | none => base

/-- The failure message built when a `COMPLETED` job has no output
artifact in the watched directory. -/
def artifact_missing_message (env : Env) (job_id final_status : String) : String :=
  append_error_details
    ("SLURM作业失败 - 作业ID: " ++ job_id ++ ", 最终状态: " ++ final_status ++ ", "
      ++ missing_artifact_phrase)
    (env.error_details job_id)

/-- The failure message built for a non-`COMPLETED` terminal state. -/
def terminal_failure_message (env : Env) (job_id final_status : String) : String :=
  append_error_details
    ("SLURM作业失败 - 作业ID: " ++ job_id ++ ", 最终状态: " ++ final_status)
    (env.error_details job_id)

/-- Embedding of `_handle_job_completion`: the trace of effects it
performs for one record and an observed final status. -/
def handle_job_completion (env : Env) (job_info : JobInfo) (final_status : String) :
    List Action :=
  if env.is_running = false ∨ env.http_client_closed = true then []
  else if final_status = "COMPLETED" then
    let h5_image_name := job_info.h5_image_name.getD ""
    let file_to_check :=
      ((completion_script_mapping h5_image_name).lookup job_info.step_name).getD ""
    if file_to_check = "" then
      [.notifyComplete job_info.pipeline_id job_info.step_name job_info.job_id]
    else if (env.fs.contains (os_path_join ImageTransferTemp file_to_check)) = false then
      [.notifyFailed job_info.pipeline_id job_info.step_name
        (artifact_missing_message env job_info.job_id final_status)]
    else if job_info.step_name = "mip_generation" then
      [.organizeImageFiles h5_image_name,
       .archiveCommand (env.extract_image_id h5_image_name),
       .notifyComplete job_info.pipeline_id job_info.step_name job_info.job_id]
    else
      [.notifyComplete job_info.pipeline_id job_info.step_name job_info.job_id]
  else
    [.notifyFailed job_info.pipeline_id job_info.step_name
      (terminal_failure_message env job_info.job_id final_status)]

/-! ### Progress updates and the Job Monitor tick -/

/-- Embedding of `_update_job_progress`: the progress notification sent
for one observed status.  Note that at its only call site the record's
`status` field has already been overwritten with the new status. -/
def update_job_progress (job_info : JobInfo) (status : String) : Action :=
  let step_status := map_slurm_status_to_step_status status
  let progress : Nat :=
    if step_status = "running" then 50
    else if step_status = "completed" then 100
    else if step_status = "failed" then
      (if job_info.status = "RUNNING" then 50 else 0)
    else 0
  .updateProgress job_info.pipeline_id job_info.step_name step_status progress

/-- The `final_states` list of `_monitor_jobs` (and the identical list
in `_verify_recovered_jobs`). -/
def final_states : List String :=
  ["COMPLETED", "FAILED", "CANCELLED", "TIMEOUT", "NODE_FAIL", "OUT_OF_MEMORY"]

/-- Handling of one record inside a `_monitor_jobs` iteration: the
updated record, the effect trace, and whether the record was marked for
removal.  Mirrors the source order: on a status change the record is
mutated first, then the progress update is sent and the store saved;
then the final-state check runs completion handling. -/
def monitor_process_job (env : Env) (check_status : JobInfo → String) (now : Nat)
    (entry : String × JobInfo) : (String × JobInfo) × List Action × Bool :=
  let job_key := entry.1
  let job_info := entry.2
  let current_status := check_status job_info
  let changed : JobInfo × List Action :=
    if current_status = job_info.status then (job_info, [])
    else
      let j := { job_info with status := current_status }
      (j, [update_job_progress j current_status, Action.saveRunningJobs])
  let completed : List Action × Bool :=
    if final_states.contains current_status then
      (handle_job_completion env changed.1 current_status, true)
    else ([], false)
  ((job_key, { changed.1 with last_check_time := now }),
   changed.2 ++ completed.1, completed.2)

/-- One full iteration of the `_monitor_jobs` loop over the store:
every record is processed, records marked for removal are deleted after
the loop, and the store is saved once more when any record was removed. -/
def monitor_jobs_tick (env : Env) (check_status : JobInfo → String) (now : Nat)
    (running_jobs : JobStore) : JobStore × List Action :=
  let processed := running_jobs.map (monitor_process_job env check_status now)
  ((processed.filter fun p => !p.2.2).map (·.1),
   (processed.map (·.2.1)).flatten
     ++ (if processed.any (·.2.2) then [Action.saveRunningJobs] else []))

/-! ### The Recovery Verifier -/

/-- Handling of one restored record inside `_verify_recovered_jobs`:
terminal status runs completion handling and marks the record for
removal; otherwise status and check time are refreshed in place. -/
def verify_process_job (env : Env) (check_status : JobInfo → String) (now : Nat)
    (entry : String × JobInfo) : (String × JobInfo) × List Action × Bool :=
  let current_status := check_status entry.2
  if final_states.contains current_status then
    (entry, handle_job_completion env entry.2 current_status, true)
  else
    ((entry.1, { entry.2 with status := current_status, last_check_time := now }),
     [], false)

/-- Embedding of `_verify_recovered_jobs`: one pass over the restored
store, removal of the terminally-completed records, and a final save. -/
def verify_recovered_jobs (env : Env) (check_status : JobInfo → String) (now : Nat)
    (running_jobs : JobStore) : JobStore × List Action :=
  let processed := running_jobs.map (verify_process_job env check_status now)
  ((processed.filter fun p => !p.2.2).map (·.1),
   (processed.map (·.2.1)).flatten ++ [Action.saveRunningJobs])

/-! ### The Orchestrator Facade -/

/-- Result of `start_step`, as returned to the service layer. -/
inductive StartResult where
  | already_running (job_id : String)
  | submitted (job_id : String)
  | failed (error : String)
deriving DecidableEq

/-- Embedding of `start_step`.  `submit_result` is the outcome of
`_submit_sbatch_job` (`none` is a failed submission); the returned
triple is the result value, the new store, and the effect trace. -/
def start_step (submit_result : Option String) (now : Nat) (running_jobs : JobStore)
    (pipeline_id step_name : String) (h5_image_name : Option String) :
    StartResult × JobStore × List Action :=
  let job_key := pipeline_id ++ "_" ++ step_name
  match running_jobs.lookup job_key with
  | some job => (.already_running job.job_id, running_jobs, [])
  | none =>
    match submit_result with
    | some job_id =>
      let job_info : JobInfo :=
        { job_id := job_id
          pipeline_id := pipeline_id
          step_name := step_name
          submit_time := now
          last_check_time := now
          h5_image_name := h5_image_name
          status := "PENDING" }
      (.submitted job_id, running_jobs ++ [(job_key, job_info)],
       [.submitSbatchJob pipeline_id step_name h5_image_name,
        Action.saveRunningJobs,
        .notifyStarted pipeline_id step_name job_id])
    | none =>
      (.failed ("作业提交失败: " ++ pipeline_id ++ "/" ++ step_name), running_jobs,
       [.submitSbatchJob pipeline_id step_name h5_image_name,
        .notifyFailed pipeline_id step_name
          ("作业提交失败: " ++ pipeline_id ++ "/" ++ step_name)])

/-! ### The Arrival Watcher -/

/-- The Processed-File Ledger: file name mapped to the timestamp at
which it triggered a pipeline (the ISO string compares like the number). -/
abbrev Ledger := List (String × Nat)

/-- The 30-day retention window of `_save_processed_files`, in the same
time unit as the model clock. -/
def retention_window : Nat := 30 * 24 * 60 * 60

/-- Dictionary assignment `processed_files[file_name] = timestamp`. -/
def dict_set : Ledger → String → Nat → Ledger
  | [], k, v => [(k, v)]
  | (k1, v1) :: rest, k, v =>
    if k1 = k then (k, v) :: rest else (k1, v1) :: dict_set rest k v

/-- Embedding of `_save_processed_files`: entries whose timestamp is not
after the 30-day cutoff are pruned on every save. -/
def save_processed_files (now : Nat) (processed_files : Ledger) : Ledger :=
  processed_files.filter fun e => now - retention_window < e.2

/-- One observation of a file during a poll: its base name, whether the
stability check passes, and whether the control-plane create call
returns 200. -/
structure FileObs where
  name : String
  stable : Bool
  create_ok : Bool

/-- Handling of one discovered file inside a `polling_loop` iteration.
`processed_files` is the ledger snapshot loaded once at the top of the
iteration, against which the dedup check runs; an unstable file is
skipped before any dispatch; a stable file is dispatched, and only a
successful create records the name under the current timestamp and
saves (and thereby prunes) the ledger. -/
def polling_step (processed_files : Ledger) (now : Nat)
    (acc : Ledger × List String) (f : FileObs) : Ledger × List String :=
  if (processed_files.lookup f.name).isSome then acc
  else if f.stable = false then acc
  else
    let dispatched := acc.2 ++ [f.name]
    if f.create_ok then
      (save_processed_files now (dict_set acc.1 f.name now), dispatched)
    else (acc.1, dispatched)

/-- One iteration of `polling_loop` over the files discovered in the
watched directory.  Returns the ledger after the iteration and the
names dispatched, in order. -/
def polling_iteration (now : Nat) (files : List FileObs) (ledger : Ledger) :
    Ledger × List String :=
  files.foldl (polling_step ledger now) (ledger, [])

/-- Chaining of one polling iteration onto an accumulated run. -/
def polling_run_step (acc : Ledger × List String) (poll : Nat × List FileObs) :
    Ledger × List String :=
  ((polling_iteration poll.1 poll.2 acc.1).1,
   acc.2 ++ (polling_iteration poll.1 poll.2 acc.1).2)

/-- A run of several consecutive polling iterations, each with its own
clock and directory observation; dispatches are accumulated in order. -/
def polling_run (polls : List (Nat × List FileObs)) (ledger : Ledger) :
    Ledger × List String :=
  polls.foldl polling_run_step (ledger, [])

/-- A run in which one file of the given name, alone in the watched
directory, is observed once per poll at a fixed clock: the scenario of
a file seen across consecutive polls. -/
def single_file_polls (c : Nat) (name : String) (obs : List (Bool × Bool)) :
    List (Nat × List FileObs) :=
  obs.map fun o => (c, [⟨name, o.1, o.2⟩])

/-! ### Descriptions of surviving records, used by the removal theorems -/

/-- What one monitor iteration does to a record it keeps: the status
field is refreshed when the observation differs and the check time is
always refreshed. -/
def monitor_entry_update (check_status : JobInfo → String) (now : Nat)
    (e : String × JobInfo) : String × JobInfo :=
  let current_status := check_status e.2
  let j1 := if current_status = e.2.status then e.2
            else { e.2 with status := current_status }
  (e.1, { j1 with last_check_time := now })

/-- What the Recovery Verifier does to a record it keeps: status and
check time are refreshed unconditionally. -/
def verify_entry_update (check_status : JobInfo → String) (now : Nat)
    (e : String × JobInfo) : String × JobInfo :=
  (e.1, { e.2 with status := check_status e.2, last_check_time := now })

/-! ### Concrete values used by witnesses and counterexamples -/

/-- An environment with the default liveness flags, an empty filesystem
and no best-effort error detail. -/
def demo_env : Env := {}

/-- A concrete active Job Record. -/
def demo_job : JobInfo :=
  { job_id := "42"
    pipeline_id := "p1"
    step_name := "mip_generation"
    submit_time := 3
    last_check_time := 4
    h5_image_name := some "a.pyramid.h5"
    status := "RUNNING" }

/-- A store holding the one concrete record under its composite key. -/
def demo_store : JobStore := [("p1_mip_generation", demo_job)]

/-- A snapshot file whose document is valid JSON — one complete record
under key `a` followed by an empty object under key `b` — but whose
second record lacks every mandatory field. -/
def corrupt_snapshot_tokens : List Token :=
  Token.lbrace :: jobDataTokens "a" (jobInfoToData demo_job)
    ++ [Token.comma, Token.tstr "b", Token.colon, Token.lbrace, Token.rbrace,
        Token.rbrace]

/-! ### Parser lemmas for the snapshot round trip -/

/-- With enough fuel, the fueled digit function is `Nat.digits 10`. -/
theorem digits_go_eq_digits : ∀ (f n : Nat), n ≤ f → digits_go f n = Nat.digits 10 n := by
  intro f
  induction f with
  | zero =>
    intro n hn
    interval_cases n
    simp [digits_go]
  | succ f ih =>
    intro n hn
    cases n with
    | zero => simp [digits_go]
    | succ m =>
      have hdiv : (m + 1) / 10 ≤ f := by
        have := Nat.div_lt_self (Nat.succ_pos m) (by norm_num : 1 < 10)
        omega
      rw [show digits_go (f + 1) (m + 1) = (m + 1) % 10 :: digits_go f ((m + 1) / 10)
          from rfl,
        Nat.digits_def' (by norm_num : 1 < 10) (Nat.succ_pos m), ih _ hdiv]

/-- The timestamp serialization round-trips exactly. -/
theorem datetime_round_trip (t : Nat) :
    datetime_fromisoformat (datetime_isoformat t) = t := by
  rw [datetime_isoformat, datetime_fromisoformat, digits_go_eq_digits t t le_rfl,
    Nat.ofDigits_digits]

/-- Parsing the token rendering of one record object yields its entry
list and leaves the remaining tokens untouched. -/
theorem parseValue_jobValueTokens (f : Nat) (d : JobData) (rest : List Token) :
    parseValue (f + 9) (jobValueTokens d ++ rest) =
      some (.obj (jobDataJson d), rest) := by
  cases h : d.h5_image_name <;>
    simp [jobValueTokens, jobDataJson, parseValue, parseEntries, h]

/-- Parsing the comma-separated renderings of a nonempty record list up
to the closing brace yields all records. -/
theorem parseEntries_jobsDataTokens (l : List (String × JobData)) (hl : l ≠ [])
    (f : Nat) (rest : List Token) :
    parseEntries (f + l.length + 9) (jobsDataTokens l ++ Token.rbrace :: rest) =
      some (l.map fun e => (e.1, Json.obj (jobDataJson e.2)), rest) := by
  induction l generalizing f with
  | nil => simp at hl
  | cons e tl ih =>
    cases tl with
    | nil =>
      simp only [jobsDataTokens, jobDataTokens, List.cons_append, List.append_assoc,
        List.length_cons, List.length_nil]
      rw [show f + (0 + 1) + 9 = (f + 9) + 1 by omega]
      simp only [parseEntries]
      rw [parseValue_jobValueTokens f e.2 (.rbrace :: rest)]
      simp
    | cons e2 tl2 =>
      simp only [jobsDataTokens, jobDataTokens, List.cons_append, List.append_assoc,
        List.length_cons]
      rw [show f + (tl2.length + 1 + 1) + 9 = ((f + (tl2.length + 1)) + 9) + 1 by omega]
      simp only [parseEntries]
      rw [parseValue_jobValueTokens (f + (tl2.length + 1)) e.2
        (Token.comma :: (jobsDataTokens (e2 :: tl2) ++ Token.rbrace :: rest))]
      have hih := ih (by simp) f
      simp only [List.length_cons] at hih
      simp [hih]

/-- Lower bound on the token rendering of a record list, used to supply
parsing fuel. -/
theorem jobsDataTokens_length (l : List (String × JobData)) (hl : l ≠ []) :
    l.length + 7 ≤ (jobsDataTokens l).length := by
  induction l with
  | nil => simp at hl
  | cons e tl ih =>
    cases tl with
    | nil => simp [jobsDataTokens, jobDataTokens, jobValueTokens]
    | cons e2 tl2 =>
      have := ih (by simp)
      simp only [jobsDataTokens, jobDataTokens, jobValueTokens, List.length_cons,
        List.length_append] at this ⊢
      omega

/-- Parsing the full serialized snapshot of a nonempty store. -/
theorem parseValue_save (l : List (String × JobData)) (hl : l ≠ []) (f : Nat)
    (rest : List Token) :
    parseValue ((f + l.length + 9) + 1)
      (Token.lbrace :: (jobsDataTokens l ++ Token.rbrace :: rest)) =
      some (.obj (l.map fun e => (e.1, Json.obj (jobDataJson e.2))), rest) := by
  cases l with
  | nil => simp at hl
  | cons e tl =>
    have h2 := parseEntries_jobsDataTokens (e :: tl) (by simp) f rest
    cases tl with
    | nil =>
      simp only [jobsDataTokens, jobDataTokens, List.cons_append] at h2 ⊢
      simp only [parseValue]
      rw [h2]
    | cons e2 tl2 =>
      simp only [jobsDataTokens, jobDataTokens, List.cons_append, List.append_assoc] at h2 ⊢
      simp only [parseValue]
      rw [h2]

/-- The model of `json.load` applied to the file written by
`_save_running_jobs` yields the expected document. -/
theorem json_load_save (jobs : JobStore) :
    json_load (save_running_jobs jobs) =
      some (.obj (jobs.map fun e => (e.1, Json.obj (jobDataJson (jobInfoToData e.2))))) := by
  cases jobs with
  | nil => rfl
  | cons j0 jt =>
    have hl : ((j0 :: jt).map fun e => (e.1, jobInfoToData e.2)) ≠ [] := by simp
    have hlen := jobsDataTokens_length _ hl
    simp only [List.length_map, List.length_cons] at hlen
    obtain ⟨f, hf⟩ : ∃ f,
        (save_running_jobs (j0 :: jt)).length + 1 = (f + (jt.length + 1) + 9) + 1 := by
      refine ⟨(save_running_jobs (j0 :: jt)).length - (jt.length + 1) - 9, ?_⟩
      simp only [save_running_jobs, List.length_cons, List.length_append,
        List.length_map, List.length_singleton]
      omega
    have hmain := parseValue_save ((j0 :: jt).map fun e => (e.1, jobInfoToData e.2))
      hl f []
    simp only [List.length_map, List.length_cons] at hmain
    simp only [json_load, hf]
    rw [show (Token.lbrace :: (jobsDataTokens ((j0 :: jt).map fun e => (e.1, jobInfoToData e.2))
        ++ Token.rbrace :: ([] : List Token)) : List Token)
      = save_running_jobs (j0 :: jt) by simp [save_running_jobs]] at hmain
    rw [hmain]
    simp [List.map_map, Function.comp]

/-- Rebuilding a record from its own serialization recovers the record
exactly; the timestamps round-trip via `datetime_round_trip`. -/
theorem jobInfoOfJson_round (j : JobInfo) :
    jobInfoOfJson (.obj (jobDataJson (jobInfoToData j))) = some j := by
  cases j with
  | mk jid pid sn st lct h5 status =>
    cases h5 <;>
      simp [jobInfoOfJson, jobDataJson, jobInfoToData, asStr, asNum, List.lookup,
        datetime_round_trip]

/-- The load loop restores every serialized record. -/
theorem loadJobsFromEntries_round (jobs : JobStore) :
    loadJobsFromEntries
      (jobs.map fun e => (e.1, Json.obj (jobDataJson (jobInfoToData e.2)))) = jobs := by
  induction jobs with
  | nil => rfl
  | cons e tl ih => simp [loadJobsFromEntries, jobInfoOfJson_round, ih]

/-- C7: for every set of Job Records (timestamps being representable at
the serialized precision by construction of the model), saving the store
with `_save_running_jobs` and then loading with `_load_running_jobs`
reproduces an identical set of records — the same keys in the same
order, and for each key the same `job_id`, `pipeline_id`, `step_name`,
input file name, `status`, `submit_time` and `last_check_time`. -/
theorem save_load_round_trip (jobs : JobStore) :
    load_running_jobs (some (save_running_jobs jobs)) = jobs := by
  simp [load_running_jobs, json_load_save, loadJobsFromEntries_round]

/-! ### The status mapping (C6) -/

/-- C6: `map_slurm_status_to_step_status` maps each of `FAILED`,
`CANCELLED`, `TIMEOUT`, `NODE_FAIL`, `OUT_OF_MEMORY`, `UNKNOWN` and
`ERROR` to the reduced status `failed`, `COMPLETED` to `completed`,
`PENDING` to `pending` and `RUNNING` to `running`. -/
theorem map_slurm_status_to_step_status_spec :
    map_slurm_status_to_step_status "FAILED" = "failed" ∧
    map_slurm_status_to_step_status "CANCELLED" = "failed" ∧
    map_slurm_status_to_step_status "TIMEOUT" = "failed" ∧
    map_slurm_status_to_step_status "NODE_FAIL" = "failed" ∧
    map_slurm_status_to_step_status "OUT_OF_MEMORY" = "failed" ∧
    map_slurm_status_to_step_status "UNKNOWN" = "failed" ∧
    map_slurm_status_to_step_status "ERROR" = "failed" ∧
    map_slurm_status_to_step_status "COMPLETED" = "completed" ∧
    map_slurm_status_to_step_status "PENDING" = "pending" ∧
    map_slurm_status_to_step_status "RUNNING" = "running" := by
  decide

/-! ### Idempotent `start_step` (C4) -/

/-- C4: when an active Job Record already exists for the
`(pipeline_id, step_name)` key, a second `start_step` call returns
`already_running` carrying the existing record's job id, performs no
effect at all — in particular nothing is submitted to the scheduler —
and leaves the Job Record Store unchanged. -/
theorem start_step_already_running (submit_result : Option String) (now : Nat)
    (jobs : JobStore) (pipeline_id step_name : String) (h5 : Option String)
    (job : JobInfo)
    (h : jobs.lookup (pipeline_id ++ "_" ++ step_name) = some job) :
    start_step submit_result now jobs pipeline_id step_name h5 =
      (.already_running job.job_id, jobs, []) := by
  simp [start_step, h]

/-- Witness for C4 at a concrete store holding one active record. -/
theorem start_step_already_running_witness :
    demo_store.lookup ("p1" ++ "_" ++ "mip_generation") = some demo_job ∧
    start_step (some "99") 7 demo_store "p1" "mip_generation" (some "a.pyramid.h5") =
      (.already_running "42", demo_store, []) :=
  ⟨by decide,
   start_step_already_running (some "99") 7 demo_store "p1" "mip_generation"
     (some "a.pyramid.h5") demo_job (by decide)⟩

/-! ### Completion handling without a table entry (C10) -/

/-- C10: for a job whose step is `cell_crop_generation` — absent from
the per-step expected-output table — completion handling on `COMPLETED`
performs no artifact existence check: the derived artifact name is the
empty string, the missing-artifact branch cannot fire, and the complete
notification is sent whatever the filesystem contains. -/
theorem cell_crop_generation_no_artifact_check
    (fs : List String) (err ext : String → Option String)
    (jid pid : String) (st lct : Nat) (h5 : Option String) (status : String) :
    handle_job_completion ⟨true, false, fs, err, ext⟩
        ⟨jid, pid, "cell_crop_generation", st, lct, h5, status⟩ "COMPLETED" =
      [.notifyComplete pid "cell_crop_generation" jid] ∧
    ((completion_script_mapping (h5.getD "")).lookup "cell_crop_generation").getD ""
      = "" := by
  refine ⟨?_, ?_⟩
  · simp [handle_job_completion, completion_script_mapping, List.lookup]
  · simp [completion_script_mapping, List.lookup]

/-! ### Silent failure on a missing output artifact (C5) -/

/-- C5: a job that terminates `COMPLETED` but whose expected output
artifact — derived from the input file name via the fixed suffix table
— is absent from the watched directory produces exactly one failure
notification, whose message carries the job id, the reported terminal
state, and the missing-artifact phrase; no complete notification is
sent and neither archival action is invoked. -/
theorem completed_missing_artifact
    (fs : List String) (err ext : String → Option String)
    (jid pid step : String) (st lct : Nat) (h5 status art : String)
    (hart : (completion_script_mapping h5).lookup step = some art)
    (hne : art ≠ "")
    (habsent : os_path_join ImageTransferTemp art ∉ fs) :
    handle_job_completion ⟨true, false, fs, err, ext⟩
        ⟨jid, pid, step, st, lct, some h5, status⟩ "COMPLETED" =
      [.notifyFailed pid step
        (artifact_missing_message ⟨true, false, fs, err, ext⟩ jid "COMPLETED")] ∧
    (∃ tail, artifact_missing_message ⟨true, false, fs, err, ext⟩ jid "COMPLETED" =
        "SLURM作业失败 - 作业ID: " ++ jid ++ ", 最终状态: " ++ "COMPLETED" ++ ", "
          ++ missing_artifact_phrase ++ tail) ∧
    (∀ p s i, Action.notifyComplete p s i ∉
        handle_job_completion ⟨true, false, fs, err, ext⟩
          ⟨jid, pid, step, st, lct, some h5, status⟩ "COMPLETED") ∧
    (∀ h, Action.organizeImageFiles h ∉
        handle_job_completion ⟨true, false, fs, err, ext⟩
          ⟨jid, pid, step, st, lct, some h5, status⟩ "COMPLETED") ∧
    (∀ i, Action.archiveCommand i ∉
        handle_job_completion ⟨true, false, fs, err, ext⟩
          ⟨jid, pid, step, st, lct, some h5, status⟩ "COMPLETED") := by
  have hres : handle_job_completion ⟨true, false, fs, err, ext⟩
      ⟨jid, pid, step, st, lct, some h5, status⟩ "COMPLETED" =
      [.notifyFailed pid step
        (artifact_missing_message ⟨true, false, fs, err, ext⟩ jid "COMPLETED")] := by
    simp [handle_job_completion, hart, hne, habsent]
  refine ⟨hres, ?_, ?_, ?_, ?_⟩
  · unfold artifact_missing_message append_error_details
    cases herr : err jid with
    | none => exact ⟨"", by simp [herr, String.append_empty]⟩
    | some d =>
      by_cases hd : d = ""
      · exact ⟨"", by simp [herr, hd, String.append_empty]⟩
      · exact ⟨", 错误详情: " ++ d, by simp [herr, hd, String.append_assoc]⟩
  · intro p s i; rw [hres]; simp
  · intro h; rw [hres]; simp
  · intro i; rw [hres]; simp

/-- Witness for C5: a `mip_generation` job whose `_MIP.tif` artifact is
not on the filesystem. -/
theorem completed_missing_artifact_witness :
    (completion_script_mapping "a.pyramid.h5").lookup "mip_generation"
        = some "a_MIP.tif" ∧
    "a_MIP.tif" ≠ "" ∧
    os_path_join ImageTransferTemp "a_MIP.tif" ∉ ([] : List String) ∧
    handle_job_completion ⟨true, false, [], fun _ => none, fun _ => none⟩
        ⟨"42", "p1", "mip_generation", 3, 4, some "a.pyramid.h5", "RUNNING"⟩
        "COMPLETED" =
      [.notifyFailed "p1" "mip_generation"
        (artifact_missing_message ⟨true, false, [], fun _ => none, fun _ => none⟩
          "42" "COMPLETED")] := by
  refine ⟨?h1, ?h2, ?h3, ?h4⟩
  case h1 => decide
  case h2 => decide
  case h3 => decide
  case h4 =>
    exact (completed_missing_artifact [] (fun _ => none) (fun _ => none)
      "42" "p1" "mip_generation" 3 4 "a.pyramid.h5" "RUNNING" "a_MIP.tif"
      (by decide) (by decide) (by decide)).1

/-! ### The Job Monitor removal discipline (C1) and progress values (C3) -/

/-- The record a monitor iteration writes back for an entry. -/
theorem monitor_process_job_fst (env : Env) (check_status : JobInfo → String)
    (now : Nat) (e : String × JobInfo) :
    (monitor_process_job env check_status now e).1 =
      monitor_entry_update check_status now e := by
  by_cases h : check_status e.2 = e.2.status <;>
    simp [monitor_process_job, monitor_entry_update, h]

/-- An entry is marked for removal exactly when the observed status is
in the code's `final_states` list. -/
theorem monitor_process_job_flag (env : Env) (check_status : JobInfo → String)
    (now : Nat) (e : String × JobInfo) :
    (monitor_process_job env check_status now e).2.2 =
      final_states.contains (check_status e.2) := by
  by_cases h : check_status e.2 ∈ final_states <;>
    simp [monitor_process_job, h]

/-- A kept entry of the Recovery Verifier is the refreshed record. -/
theorem verify_process_job_fst (env : Env) (check_status : JobInfo → String)
    (now : Nat) (e : String × JobInfo)
    (h : final_states.contains (check_status e.2) = false) :
    (verify_process_job env check_status now e).1 =
      verify_entry_update check_status now e := by
  have h2 : check_status e.2 ∉ final_states := by simpa using h
  simp [verify_process_job, h2, verify_entry_update]

/-- A Recovery Verifier entry is marked for removal exactly when the
observed status is in `final_states`. -/
theorem verify_process_job_flag (env : Env) (check_status : JobInfo → String)
    (now : Nat) (e : String × JobInfo) :
    (verify_process_job env check_status now e).2.2 =
      final_states.contains (check_status e.2) := by
  by_cases h : check_status e.2 ∈ final_states <;>
    simp [verify_process_job, h]

/-- Surviving entries of a processed store are the entries whose flag is
off, each rewritten by the per-entry update. -/
theorem filter_map_fst_aux
    (f : (String × JobInfo) → (String × JobInfo) × List Action × Bool)
    (g : (String × JobInfo) → String × JobInfo)
    (q : (String × JobInfo) → Bool)
    (hq : ∀ e, (f e).2.2 = q e)
    (hf : ∀ e, q e = false → (f e).1 = g e)
    (jobs : JobStore) :
    ((jobs.map f).filter fun p => !p.2.2).map (·.1) =
      (jobs.filter fun e => !(q e)).map g := by
  induction jobs with
  | nil => rfl
  | cons e tl ih =>
    simp only [List.map_cons, List.filter_cons, hq]
    by_cases h : q e
    · simp [h, ih]
    · simp only [Bool.not_eq_true] at h
      simp [h, ih, hf e h]

/-- Whether any processed entry is marked for removal is whether any
observed status is in `final_states`. -/
theorem any_flag_aux (env : Env) (check_status : JobInfo → String) (now : Nat)
    (jobs : JobStore) :
    ((jobs.map (monitor_process_job env check_status now)).any (·.2.2)) =
      (jobs.any fun e => final_states.contains (check_status e.2)) := by
  induction jobs with
  | nil => rfl
  | cons e tl ih => simp [monitor_process_job_flag, ih]

/-- C1 (amended): an active Job Record is removed from the store exactly
when the observed scheduler status lies in the code's `final_states`
list `{COMPLETED, FAILED, CANCELLED, TIMEOUT, NODE_FAIL, OUT_OF_MEMORY}`
— `UNKNOWN` and `ERROR` do not trigger removal, the record merely has
its status refreshed; when any record is removed the store is persisted.
This holds for the Job Monitor tick and for the Recovery Verifier. -/
theorem terminal_removal_matches_final_states :
    (∀ env check_status now jobs,
      (monitor_jobs_tick env check_status now jobs).1 =
        (jobs.filter fun e => !(final_states.contains (check_status e.2))).map
          (monitor_entry_update check_status now)) ∧
    (∀ env check_status now jobs,
      (verify_recovered_jobs env check_status now jobs).1 =
        (jobs.filter fun e => !(final_states.contains (check_status e.2))).map
          (verify_entry_update check_status now)) ∧
    (∀ env check_status now jobs,
      (jobs.any fun e => final_states.contains (check_status e.2)) = true →
        Action.saveRunningJobs ∈ (monitor_jobs_tick env check_status now jobs).2) ∧
    (∀ s, final_states.contains s = true ↔
      s = "COMPLETED" ∨ s = "FAILED" ∨ s = "CANCELLED" ∨ s = "TIMEOUT" ∨
      s = "NODE_FAIL" ∨ s = "OUT_OF_MEMORY") := by
  refine ⟨?_, ?_, ?_, ?_⟩
  · intro env check_status now jobs
    simp only [monitor_jobs_tick]
    exact filter_map_fst_aux _ _ _
      (monitor_process_job_flag env check_status now)
      (fun e _ => monitor_process_job_fst env check_status now e) jobs
  · intro env check_status now jobs
    simp only [verify_recovered_jobs]
    exact filter_map_fst_aux _ _ _
      (verify_process_job_flag env check_status now)
      (verify_process_job_fst env check_status now) jobs
  · intro env check_status now jobs h
    have hany : ((jobs.map (monitor_process_job env check_status now)).any (·.2.2))
        = true := by
      rw [any_flag_aux]
      exact h
    simp only [monitor_jobs_tick, hany]
    simp
  · intro s
    simp [final_states]

/-- Witness for C1: removing a completed record persists the store. -/
theorem terminal_removal_witness :
    ((demo_store.any fun e =>
        final_states.contains ((fun _ => "COMPLETED") e.2)) = true) ∧
    Action.saveRunningJobs ∈
      (monitor_jobs_tick demo_env (fun _ => "COMPLETED") 7 demo_store).2 :=
  ⟨by decide,
   terminal_removal_matches_final_states.2.2.1 demo_env (fun _ => "COMPLETED") 7
     demo_store (by decide)⟩

/-- C1 counterexample: `UNKNOWN` (and `ERROR`) are neither `PENDING` nor
`RUNNING`, so the claim calls them terminal, yet a Job Monitor tick that
observes them leaves the record in the store. -/
theorem unknown_error_not_removed :
    ("UNKNOWN" ≠ "PENDING" ∧ "UNKNOWN" ≠ "RUNNING" ∧
      "ERROR" ≠ "PENDING" ∧ "ERROR" ≠ "RUNNING") ∧
    (monitor_jobs_tick demo_env (fun _ => "UNKNOWN") 7 demo_store).1.map Prod.fst
      = ["p1_mip_generation"] ∧
    (monitor_jobs_tick demo_env (fun _ => "ERROR") 7 demo_store).1.map Prod.fst
      = ["p1_mip_generation"] := by
  refine ⟨by decide, ?_, ?_⟩ <;> rfl

/-- C3 (code evaluation at the failing input): a job stored as `RUNNING`
for which the monitor observes `FAILED` is reported with progress `0`,
not `50` — the record's status field is overwritten with the new status
before `_update_job_progress` reads it, so the was-running check can
never see `RUNNING` on a failure. -/
theorem failed_from_running_progress_zero :
    demo_job.status = "RUNNING" ∧
    map_slurm_status_to_step_status "FAILED" = "failed" ∧
    Action.updateProgress "p1" "mip_generation" "failed" 0
      ∈ (monitor_jobs_tick demo_env (fun _ => "FAILED") 7 demo_store).2 ∧
    (∀ a ∈ (monitor_jobs_tick demo_env (fun _ => "FAILED") 7 demo_store).2,
      a ≠ Action.updateProgress "p1" "mip_generation" "failed" 50) := by
  refine ⟨by decide, by decide, ?_, ?_⟩ <;> decide

/-! ### Crash non-atomicity of the snapshot writer (C2) -/

/-- C2 (code evaluation at the failing input): `_save_running_jobs`
writes the snapshot in place — `open(..., "w")` truncates the file
before `json.dump` writes it — so the crash point right after the
truncation leaves an empty file: the subsequent load parses nothing and
produces the empty store, which is neither the complete previous
snapshot (here nonempty) nor the complete new one.  A crash in the
middle of the write likewise leaves an unparseable prefix.  Only the
crash-free write loads back to the new snapshot. -/
theorem save_crash_not_atomic :
    demo_store ≠ [] ∧
    save_running_jobs_crash demo_store 0 = [] ∧
    load_running_jobs (some (save_running_jobs_crash demo_store 0)) = [] ∧
    load_running_jobs (some (save_running_jobs_crash demo_store 5)) = [] ∧
    load_running_jobs (some (save_running_jobs demo_store)) = demo_store := by
  exact ⟨by decide, by rfl, by rfl, by rfl, by rfl⟩

/-! ### Non-fatal snapshot loading (C9) -/

/-- C9 (amended): `_load_running_jobs` never raises out of the call: a
missing snapshot file and a document that fails to parse both leave the
store empty; but when the document parses as JSON and a later record is
malformed, the records inserted before the failure remain, so a corrupt
file can yield a partial — not necessarily empty — store. -/
theorem load_running_jobs_non_fatal :
    load_running_jobs none = [] ∧
    (∀ tokens, json_load tokens = none → load_running_jobs (some tokens) = []) ∧
    (∀ (k1 : String) (j1 : Json) (i1 : JobInfo) (k2 : String) (j2 : Json)
        (rest : List (String × Json)),
      jobInfoOfJson j1 = some i1 → jobInfoOfJson j2 = none →
        loadJobsFromEntries ((k1, j1) :: (k2, j2) :: rest) = [(k1, i1)]) := by
  refine ⟨rfl, ?_, ?_⟩
  · intro tokens h
    simp [load_running_jobs, h]
  · intro k1 j1 i1 k2 j2 rest h1 h2
    simp [loadJobsFromEntries, h1, h2]

/-- Witness for C9 at concrete inputs: an unparseable file loads to the
empty store, and a two-record document with a malformed second record
loads to the first record only. -/
theorem load_running_jobs_non_fatal_witness :
    json_load [Token.colon] = none ∧
    load_running_jobs (some [Token.colon]) = [] ∧
    jobInfoOfJson (Json.obj (jobDataJson (jobInfoToData demo_job))) = some demo_job ∧
    jobInfoOfJson (Json.obj []) = none ∧
    loadJobsFromEntries
        [("a", Json.obj (jobDataJson (jobInfoToData demo_job))), ("b", Json.obj [])]
      = [("a", demo_job)] :=
  ⟨by rfl, load_running_jobs_non_fatal.2.1 [Token.colon] (by rfl), by rfl, by rfl,
   load_running_jobs_non_fatal.2.2 "a" _ demo_job "b" (Json.obj []) [] (by rfl) (by rfl)⟩

/-- C9 counterexample: a snapshot whose document is valid JSON but whose
second record is malformed loads to a nonempty partial store — the
claim's "empty in-memory store" on corrupt contents fails. -/
theorem corrupt_snapshot_partial_store :
    (json_load corrupt_snapshot_tokens).isSome = true ∧
    jobInfoOfJson (Json.obj []) = none ∧
    load_running_jobs (some corrupt_snapshot_tokens) = [("a", demo_job)] ∧
    load_running_jobs (some corrupt_snapshot_tokens) ≠ [] := by
  refine ⟨by rfl, by rfl, by rfl, by decide⟩

/-! ### Arrival Watcher deduplication (C8) -/

/-- A name present in the ledger snapshot consulted by an iteration is
never appended to the dispatch list by the remaining fold. -/
theorem polling_step_foldl_skip (led0 : Ledger) (now : Nat) (name : String)
    (h : (led0.lookup name).isSome = true) :
    ∀ (files : List FileObs) (acc : Ledger × List String), name ∉ acc.2 →
      name ∉ (files.foldl (polling_step led0 now) acc).2 := by
  intro files
  induction files with
  | nil => intro acc hacc; simpa using hacc
  | cons f tl ih =>
    intro acc hacc
    rw [List.foldl_cons]
    apply ih
    by_cases h1 : (led0.lookup f.name).isSome = true
    · simpa [polling_step, h1] using hacc
    · have hne : ¬ name = f.name := fun he => h1 (he ▸ h)
      by_cases h2 : f.stable = false
      · simpa [polling_step, h1, h2] using hacc
      · by_cases h3 : f.create_ok = true <;>
          simp [polling_step, h1, h2, h3, hacc, hne]

/-- Once the single watched file is recorded in the ledger, every later
poll of the single-file run leaves ledger and dispatch list unchanged. -/
theorem single_file_run_skip (c : Nat) (name : String) :
    ∀ (obs : List (Bool × Bool)) (led : Ledger) (ds : List String),
      (led.lookup name).isSome = true →
      List.foldl polling_run_step (led, ds) (single_file_polls c name obs) =
        (led, ds) := by
  intro obs
  induction obs with
  | nil => intro led ds _; rfl
  | cons o tl ih =>
    intro led ds h
    simp only [single_file_polls, List.map_cons, List.foldl_cons]
    have hstep : polling_run_step (led, ds) (c, [⟨name, o.1, o.2⟩]) = (led, ds) := by
      simp [polling_run_step, polling_iteration, polling_step, h]
    rw [hstep]
    have := ih led ds h
    simpa [single_file_polls] using this

/-- From an empty ledger, a single-file run in which every create call
succeeds either never dispatches (the file never became stable) or
dispatches exactly once and records the file. -/
theorem single_file_run_cases (c : Nat) (name : String) (hc : 1 ≤ c) :
    ∀ obs : List (Bool × Bool), (∀ o ∈ obs, o.2 = true) →
      polling_run (single_file_polls c name obs) [] = ([], []) ∨
      polling_run (single_file_polls c name obs) [] = ([(name, c)], [name]) := by
  intro obs
  induction obs with
  | nil => intro _; exact Or.inl rfl
  | cons o tl ih =>
    intro hok
    simp only [polling_run, single_file_polls, List.map_cons, List.foldl_cons]
    by_cases hst : o.1 = true
    · right
      have hlt : c - retention_window < c := by
        simp only [retention_window]
        omega
      have hstep : polling_run_step ([], []) (c, [⟨name, o.1, o.2⟩])
          = ([(name, c)], [name]) := by
        have ho2 : o.2 = true := hok o (by simp)
        simp [polling_run_step, polling_iteration, polling_step, hst, ho2,
          save_processed_files, dict_set, hlt]
      rw [hstep]
      have := single_file_run_skip c name tl [(name, c)] [name] (by simp)
      simpa [single_file_polls] using this
    · have hstep : polling_run_step ([], []) (c, [⟨name, o.1, o.2⟩]) = ([], []) := by
        simp [polling_run_step, polling_iteration, polling_step, hst]
      rw [hstep]
      have := ih fun o2 ho2 => hok o2 (List.mem_cons_of_mem _ ho2)
      simpa [polling_run, single_file_polls] using this

/-- C8 (amended): a file name present in the Processed-File Ledger at
the start of a poll is not dispatched during that poll; and a single
file observed across consecutive polls — unstable for a while, then
stable — is dispatched at most once in total, provided every dispatched
create call succeeds (a failed create leaves the name unrecorded and is
retried) and the activity stays within the 30-day retention window
(here: one positive clock value). -/
theorem arrival_watcher_dedup :
    (∀ now files ledger name, (ledger.lookup name).isSome = true →
        name ∉ (polling_iteration now files ledger).2) ∧
    (∀ c name obs, 1 ≤ c → (∀ o ∈ obs, o.2 = true) →
        ((polling_run (single_file_polls c name obs) []).2).count name ≤ 1) := by
  constructor
  · intro now files ledger name h
    exact polling_step_foldl_skip ledger now name h files (ledger, []) (by simp)
  · intro c name obs hc hok
    rcases single_file_run_cases c name hc obs hok with h | h <;> simp [h]

/-- Witness for C8 at concrete inputs. -/
theorem arrival_watcher_dedup_witness :
    ((([("a.h5", 5)] : Ledger).lookup "a.h5").isSome = true) ∧
    "a.h5" ∉ (polling_iteration 9 [⟨"a.h5", true, true⟩] [("a.h5", 5)]).2 ∧
    (∀ o ∈ ([(true, true)] : List (Bool × Bool)), o.2 = true) ∧
    ((polling_run (single_file_polls 1 "b.h5" [(true, true)]) []).2).count "b.h5"
      ≤ 1 :=
  ⟨by decide, arrival_watcher_dedup.1 9 _ _ _ (by decide), by decide,
   arrival_watcher_dedup.2 1 "b.h5" [(true, true)] (by decide) (by decide)⟩

/-- C8 counterexample: a file unstable in one poll, then stable with a
failed create, then stable with a successful create, is dispatched twice
in total — the claim's "at most once in total" fails when a create call
fails, because only a successful create records the name. -/
theorem watcher_redispatches_after_failed_create :
    (polling_run
        [(1, [⟨"a.h5", false, false⟩]), (1, [⟨"a.h5", true, false⟩]),
         (1, [⟨"a.h5", true, true⟩])] []).2 = ["a.h5", "a.h5"] ∧
    (["a.h5", "a.h5"].count "a.h5") = 2 :=
  ⟨by rfl, by rfl⟩

end PipelineWorker
